import Mathlib

/-! Verification development for the basketball-form-analyzer analysis pipeline.

The definitions below are a shallow embedding of the backend job pipeline:
the Firestore job ledger (`services/firestore.ts`), the analysis routes
(`routes/analysis.ts`), the processing worker (`services/queue.ts`), the
angle classifier (`services/cv/angle_calculator.ts`), the coaching result
validation (`services/coaching/gemini.ts`) and the skeleton-frame selection
(`services/cv/skeleton_generator.ts`).  Numbers that the source manipulates
as JS floats are modelled as rationals (exact for every literal that the
relevant code paths use) except for the trigonometric angle formula, which
is modelled over the reals.  Fallible external collaborators are modelled
by `Except`/`Bool` outcome parameters; the Firestore document mutations are
modelled as pure record updates.
-/

namespace Arc

/-- Embeds `AnalysisStatus` from services/firestore.ts. -/
inductive AnalysisStatus
  | queued
  | processing
  | complete
  | failed
deriving DecidableEq, Repr

/-- Embeds `ProgressStage` from services/firestore.ts. -/
inductive ProgressStage
  | uploading
  | extracting_frames
  | pose
  | llm
  | saving
deriving DecidableEq, Repr

/-- Embeds `ShootingAnglesMeasurements` from services/firestore.ts (numeric fields
modelled as rationals; the source field bodyLean is spelled `bodyLeanDeg`
here). -/
structure ShootingAnglesMeasurements where
  elbowAngleAtRelease : ℚ
  kneeFlexionAtSetPoint : ℚ
  bodyLeanDeg : ℚ
  setPointHeight : ℚ
deriving DecidableEq, Repr

/-- Embeds `AnalysisJob` from services/firestore.ts.  Optional document fields are
`Option`s; the Firestore `Timestamp` bookkeeping fields are omitted because
no claim mentions them. -/
structure AnalysisJob where
  analysisId : String
  deviceId : String
  userId : Option String
  status : AnalysisStatus
  progressStage : Option ProgressStage
  videoPath : Option String
  error : Option String
  coachSummary : Option String
  primaryFocus : Option String
  whyItMatters : Option String
  drillRecommendation : Option String
  correctionCategory : Option String
  skeletonFrameUrls : Option (List String)
  shootingAngles : Option ShootingAnglesMeasurements
deriving DecidableEq, Repr

/-- JS truthiness of an optional string: defined and non-empty. -/
def truthyStr : Option String → Bool
  | none => false
  | some s => s ≠ ""

/-- Embeds `updateAnalysisStatus` from services/firestore.ts.  The Firestore client
is constructed with `ignoreUndefinedProperties: true`, so an absent
`progressStage` argument leaves the stored field unchanged instead of
deleting it; `error` is written only when truthy (`if (error)`).  The write
is a plain `update` call: it reads nothing and checks nothing. -/
def updateAnalysisStatus (job : AnalysisJob) (status : AnalysisStatus)
    (progressStage : Option ProgressStage := none)
    (error : Option String := none) : AnalysisJob :=
  { job with
    status := status
    progressStage := match progressStage with
      | some st => some st
      | none => job.progressStage
    error := if truthyStr error then error else job.error }

/-- Result payload of `saveAnalysisResults` from services/firestore.ts. -/
structure AnalysisResultsPayload where
  coachSummary : String
  primaryFocus : String
  whyItMatters : String
  drillRecommendation : String
  correctionCategory : String
  skeletonFrameUrls : Option (List String)
  shootingAngles : Option ShootingAnglesMeasurements
deriving DecidableEq, Repr

/-- Embeds `saveAnalysisResults` from services/firestore.ts: a plain `update` that
sets `status: "complete"` together with the result fields (undefined
optional fields are stripped by `ignoreUndefinedProperties`, leaving the
stored field unchanged). -/
def saveAnalysisResults (job : AnalysisJob) (r : AnalysisResultsPayload) :
    AnalysisJob :=
  { job with
    status := AnalysisStatus.complete
    coachSummary := some r.coachSummary
    primaryFocus := some r.primaryFocus
    whyItMatters := some r.whyItMatters
    drillRecommendation := some r.drillRecommendation
    correctionCategory := some r.correctionCategory
    skeletonFrameUrls := match r.skeletonFrameUrls with
      | some us => some us
      | none => job.skeletonFrameUrls
    shootingAngles := match r.shootingAngles with
      | some a => some a
      | none => job.shootingAngles }

/-- Position of a status along the forward DAG
queued → processing → {complete, failed}. -/
def statusRank : AnalysisStatus → Nat
  | .queued => 0
  | .processing => 1
  | .complete => 2
  | .failed => 2

/-- Predicate `statusForward a b` holds when moving the stored status from `a` to `b`
is a forward (or stationary) move along the DAG
queued → processing → {complete, failed}. -/
def statusForward (a b : AnalysisStatus) : Prop :=
  a = b ∨ (a = .queued) ∨
    (a = .processing ∧ (b = .complete ∨ b = .failed))

instance (a b : AnalysisStatus) : Decidable (statusForward a b) :=
  decidable_of_iff
    (a = b ∨ (a = .queued) ∨ (a = .processing ∧ (b = .complete ∨ b = .failed)))
    Iff.rfl

/-! Section: Coaching decision result (services/coaching/gemini.ts) -/

/-- Embeds `CoachingAnalysisResult` from services/coaching/gemini.ts, i.e. the JSON
object parsed out of the model response.  `correctionCategory` is an
arbitrary string at this point. -/
structure CoachingAnalysisResult where
  coachSummary : String
  primaryFocus : String
  whyItMatters : String
  drillRecommendation : String
  correctionCategory : String
  priorReferenceText : Option String
deriving DecidableEq, Repr

/-- Embeds `validCategories` from `analyzeShootingForm` in
services/coaching/gemini.ts. -/
def validCategories : List String :=
  ["balance_verticality", "shot_line_integrity", "set_point_consistency",
   "release_follow_through"]

/-- The category validation at the end of `analyzeShootingForm`:
`if (!validCategories.includes(...)) analysis.correctionCategory =
"release_follow_through"`. -/
def validateCorrectionCategory (c : String) : String :=
  if c ∈ validCategories then c else "release_follow_through"

/-- Embeds `analyzeShootingForm` from services/coaching/gemini.ts, reduced to its
decidable core: the Gemini call / JSON parse either throws (`.error`) or
yields a parsed `CoachingAnalysisResult` (`.ok`), and on success the
function patches `correctionCategory` through the enumeration check before
returning. -/
def analyzeShootingForm (outcome : Except String CoachingAnalysisResult) :
    Except String CoachingAnalysisResult :=
  outcome.map fun r =>
    { r with correctionCategory := validateCorrectionCategory r.correctionCategory }

/-! Section: Session ledger (services/firestore.ts) -/

/-- Embeds `SessionSummary` from services/firestore.ts; the Firestore `Timestamp`
is modelled as a natural number (larger = more recent). -/
structure SessionSummary where
  sessionId : String
  deviceId : String
  userId : Option String
  date : Nat
  primaryFocus : String
  correctionCategory : String
  videoPath : String
deriving DecidableEq, Repr

/-- Comparison used by the `orderBy("date", "desc")` clause of
`getUserSessions`. -/
def dateDesc (a b : SessionSummary) : Prop := b.date ≤ a.date

instance : DecidableRel dateDesc := fun a b => by
  unfold dateDesc; infer_instance

/-- Embeds `getUserSessions` from services/firestore.ts: the query filters the
sessions collection on `deviceId`, orders by `date` descending and limits
the result count.  The unordered collection is a list; the ordering clause
is an insertion sort under `dateDesc`. -/
def getUserSessions (store : List SessionSummary) (deviceId : String)
    (limit : Nat) : List SessionSummary :=
  (List.insertionSort dateDesc
    (store.filter fun s => s.deviceId = deviceId)).take limit

/-- The continuity-context computation in `processAnalysisTask`
(services/queue.ts): `previousFocus = sessions[0]?.primaryFocus` and
`sessionsOnFocus = sessions.filter(s => s.primaryFocus ===
previousFocus).length`. -/
def continuityContext (sessions : List SessionSummary) :
    Option String × Nat :=
  match sessions.head? with
  | none => (none, 0)
  | some h =>
    (some h.primaryFocus,
      (sessions.filter fun s => s.primaryFocus = h.primaryFocus).length)

/-- Modelled from the spec: "how many consecutive prior sessions shared it"
— the length of the maximal run of sessions sharing the `primaryFocus`
of the newest session, counted from the most recent one.  (This definition exists
only to compare the wording of the spec with `continuityContext`; the source
counts all matching sessions in the window, consecutive or not.) -/
def consecutiveOnFocus (sessions : List SessionSummary) : Nat :=
  match sessions with
  | [] => 0
  | h :: _ =>
    (sessions.takeWhile fun s => s.primaryFocus = h.primaryFocus).length

/-! Section: Analysis routes (routes/analysis.ts) -/

/-- Embeds `UserData` from services/firestore.ts. -/
structure UserData where
  deviceId : String
  userId : Option String
  isPro : Bool
  freeAnalysesUsed : Nat
  freeAnalysesLimit : Nat
deriving DecidableEq, Repr

/-- Payload enqueued by `enqueueAnalysisTask` (services/queue.ts). -/
structure TaskPayload where
  analysisId : String
  videoPath : String
  angleHint : Option String
  deviceId : String
  userId : Option String
deriving DecidableEq, Repr

/-- Response of the start route: either a JSON body `{status, message}` or
an error `{code, httpStatus}`. -/
inductive StartOutcome
  | ok (status : AnalysisStatus) (message : String)
  | apiError (code : String) (httpStatus : Nat)
deriving DecidableEq, Repr

/-- Embeds `POST /v1/analysis/:id/start` from routes/analysis.ts.  `job?` is the
`getAnalysisJob` lookup result, `enqueueOk` models whether
`enqueueAnalysisTask` succeeds.  Returns the HTTP outcome together with the
list of tasks handed to the dispatcher. -/
def startAnalysis (job? : Option AnalysisJob) (requestDeviceId : String)
    (jobId : String) (enqueueOk : Bool) : StartOutcome × List TaskPayload :=
  match job? with
  | none => (.apiError "NOT_FOUND" 404, [])
  | some job =>
    if job.deviceId ≠ requestDeviceId then
      (.apiError "UNAUTHORIZED" 403, [])
    else if job.status = .processing ∨ job.status = .complete then
      (.ok job.status "Analysis already started", [])
    else if enqueueOk then
      (.ok .queued "Analysis started",
        [{ analysisId := jobId, videoPath := job.videoPath.getD "",
           angleHint := none, deviceId := requestDeviceId,
           userId := job.userId }])
    else
      (.apiError "ANALYSIS_FAILED" 500, [])

/-- Embeds `createAnalysisJob` from services/firestore.ts. -/
def createAnalysisJob (analysisId : String) (deviceId : String)
    (userId : Option String) (videoPath : String) : AnalysisJob :=
  { analysisId := analysisId
    deviceId := deviceId
    userId := userId
    status := .queued
    progressStage := none
    videoPath := some videoPath
    error := none
    coachSummary := none
    primaryFocus := none
    whyItMatters := none
    drillRecommendation := none
    correctionCategory := none
    skeletonFrameUrls := none
    shootingAngles := none }

/-- Observable steps of the create route, in execution order. -/
inductive CreateEvent
  | entitlementChecked
  | jobCreated
  | usageIncremented
deriving DecidableEq, Repr

/-- HTTP outcome of the create route. -/
inductive CreateOutcome
  | created (analysisId : String)
  | paywallDenied
  | serverError
deriving DecidableEq, Repr

/-- Result of running `POST /v1/analysis`: outcome, the job records written
to the ledger, the user record afterwards, and the event trace. -/
structure CreateResult where
  outcome : CreateOutcome
  jobs : List AnalysisJob
  user : UserData
  events : List CreateEvent
deriving Repr

/-- Embeds `POST /v1/analysis` from routes/analysis.ts, starting after
`getOrCreateUserData` returned `user`.  `createJobOk` models whether the
`createAnalysisJob` Firestore write succeeds (on failure the catch handler
returns a 500 and nothing after the write runs).  The usage increment
(`incrementFreeAnalysesUsed`) runs only for non-pro users and only after
the job write has succeeded. -/
def createAnalysisRoute (user : UserData) (createJobOk : Bool)
    (analysisId videoPath : String) : CreateResult :=
  if !user.isPro && decide (user.freeAnalysesLimit ≤ user.freeAnalysesUsed) then
    { outcome := .paywallDenied, jobs := [], user := user,
      events := [.entitlementChecked] }
  else if !createJobOk then
    { outcome := .serverError, jobs := [], user := user,
      events := [.entitlementChecked] }
  else
    let job := createAnalysisJob analysisId user.deviceId user.userId videoPath
    if user.isPro then
      { outcome := .created analysisId, jobs := [job], user := user,
        events := [.entitlementChecked, .jobCreated] }
    else
      { outcome := .created analysisId, jobs := [job],
        user := { user with freeAnalysesUsed := user.freeAnalysesUsed + 1 },
        events := [.entitlementChecked, .jobCreated, .usageIncremented] }

/-! Section: Skeleton frame selection (services/cv/skeleton_generator.ts) -/

/-- JS array subscript `l[i]`: `undefined` (here `none`) for a negative or
out-of-bounds index. -/
def jsGet (l : List String) (i : Int) : Option String :=
  if 0 ≤ i then l.get? i.toNat else none

/-- The label pool of `selectKeySkeletonFrames`. -/
def keyFrameLabels : List String :=
  ["Setup", "Lift", "Set Point", "Release", "Follow-through"]

/-- Return value of `selectKeySkeletonFrames`.  `paths` entries are
`Option`s because the JS array can contain `undefined` when an index is out
of range. -/
structure SkeletonSelection where
  paths : List (Option String)
  labels : List String
deriving DecidableEq, Repr

/-- Embeds `selectKeySkeletonFrames` from services/cv/skeleton_generator.ts.
`Math.floor(totalFrames * 0.25)` is exact in binary floating point and
equals integer division by 4; `[...new Set(indices)].sort((a,b) => a-b)` is
the ascending sort of the distinct indices. -/
def selectKeySkeletonFrames (allPaths : List String) (releaseFrame : Int) :
    SkeletonSelection :=
  if allPaths.length = 0 then
    { paths := [], labels := [] }
  else if allPaths.length ≤ 5 then
    { paths := allPaths.map some
      labels := (List.range allPaths.length).map
        fun i => "Frame " ++ toString (i + 1) }
  else
    let n : Int := allPaths.length
    let indices : List Int :=
      [0, n / 4, max 0 (releaseFrame - 2), releaseFrame,
       min (n - 1) (releaseFrame + 3)]
    let uniqueIndices := List.insertionSort (· ≤ ·) indices.dedup
    { paths := uniqueIndices.map fun i => jsGet allPaths (min i (n - 1))
      labels := keyFrameLabels.take uniqueIndices.length }

/-! Section: Processing worker (services/queue.ts) -/

/-- Confidence bucket of a pose measurement. -/
inductive Confidence
  | high
  | medium
  | low
deriving DecidableEq, Repr

/-- Embeds `ShootingAngles` from services/cv/angle_calculator.ts. -/
structure ShootingAngles where
  elbowAngleAtRelease : ℚ
  kneeFlexionAtSetPoint : ℚ
  bodyLeanDeg : ℚ
  setPointHeight : ℚ
  releaseFrame : Int
  confidence : Confidence
deriving DecidableEq, Repr

/-- The projection `processAnalysisTask` applies when persisting
`shootingAngles` into the results payload. -/
def toMeasurements (a : ShootingAngles) : ShootingAnglesMeasurements :=
  { elbowAngleAtRelease := a.elbowAngleAtRelease
    kneeFlexionAtSetPoint := a.kneeFlexionAtSetPoint
    bodyLeanDeg := a.bodyLeanDeg
    setPointHeight := a.setPointHeight }

/-- Successful output of `runMediaPipePose`
(a `PoseAnalysisResult`, restricted to the fields the worker reads). -/
structure PoseSuccess where
  framesAnalyzed : Nat
  shootingAngles : ShootingAngles
  skeletonFramePaths : List String
deriving DecidableEq, Repr

/-- Parameters of `processAnalysisTask` (the Cloud Tasks payload). -/
structure WorkerParams where
  analysisId : String
  videoPath : String
  angleHint : Option String
  deviceId : String
  userId : Option String
deriving DecidableEq, Repr

/-- Outcomes of the fallible steps of the worker, fixed up front so a
worker run is a pure function.  Fallible steps comprise the external
collaborators and the awaited operations that run after
`saveAnalysisResults` has already written `complete`: the `saveSession`
Firestore write, the final `updateAnalysisStatus("complete")` write
(modelled as not landing when it throws), and `fs.unlinkSync` on the
downloaded video.  `rmSync(framesDir, {force})` and
`cleanupSkeletonFrames` are modelled as non-throwing (the latter swallows
its errors in the source); the status write performed inside the catch
handler itself is modelled as landing. -/
structure WorkerEnv where
  downloadOk : Bool
  downloadErr : String
  framesResult : Except String (List String)
  poseResult : Except String PoseSuccess
  poseDirOnFailure : Bool
  uploadedUrls : List String
  geminiOutcome : Except String CoachingAnalysisResult
  saveSessionResult : Except String Unit
  completeWriteResult : Except String Unit
  unlinkResult : Except String Unit
  sessionStore : List SessionSummary
  now : Nat

/-- Worker-visible state: the job document, whether each locally-staged
temporary artifact currently exists (`/tmp` video file, frames directory,
skeleton directory), the appended session records, and the ordered list of
status values written to the ledger. -/
structure WorkerState where
  job : AnalysisJob
  localVideo : Bool
  framesDir : Bool
  skeletonDir : Bool
  savedSessions : List SessionSummary
  statusWrites : List AnalysisStatus

/-- A ledger status write performed by the worker
(via `updateAnalysisStatus`), recorded in the trace. -/
def wUpdateStatus (s : WorkerState) (st : AnalysisStatus)
    (ps : Option ProgressStage) (err : Option String) : WorkerState :=
  { s with job := updateAnalysisStatus s.job st ps err
           statusWrites := s.statusWrites ++ [st] }

/-- A `saveAnalysisResults` write (which sets `status: "complete"`),
recorded in the trace. -/
def wSaveResults (s : WorkerState) (r : AnalysisResultsPayload) : WorkerState :=
  { s with job := saveAnalysisResults s.job r
           statusWrites := s.statusWrites ++ [AnalysisStatus.complete] }

/-- Embeds `cleanupSkeletonFrames` from services/cv/skeleton_generator.ts: removes
the skeleton directory when present, swallowing errors. -/
def wCleanupSkeleton (s : WorkerState) : WorkerState :=
  { s with skeletonDir := false }

/-- The catch handler of `processAnalysisTask`: clean up skeleton frames
(only), mark the job failed with the thrown message, and rethrow. -/
def failWith (s : WorkerState) (msg : String) : Option String × WorkerState :=
  let s := wCleanupSkeleton s
  let s := wUpdateStatus s .failed none (some msg)
  (some msg, s)

/-- The degradable pose step of `processAnalysisTask`: on success the
skeleton directory has been populated, the key frames are selected and
uploaded; on failure (inner catch) the worker logs and continues with
`shootingAngles` undefined and no skeleton URLs. -/
def poseStep (env : WorkerEnv) (s : WorkerState) :
    Option ShootingAngles × List String × WorkerState :=
  match env.poseResult with
  | .ok pose =>
    let s := { s with skeletonDir := true }
    let key := selectKeySkeletonFrames pose.skeletonFramePaths
      pose.shootingAngles.releaseFrame
    let urls := if 0 < key.paths.length then env.uploadedUrls else []
    (some pose.shootingAngles, urls, s)
  | .error _ => (none, [], { s with skeletonDir := env.poseDirOnFailure })

/-- Embeds `processAnalysisTask` from services/queue.ts.  Returns the rethrown
error (if any) and the final state. -/
def processAnalysisTask (env : WorkerEnv) (p : WorkerParams)
    (s : WorkerState) : Option String × WorkerState :=
  let s := wUpdateStatus s .processing (some .extracting_frames) none
  if env.downloadOk = false then failWith s env.downloadErr
  else
  let s := { s with localVideo := true }
  match env.framesResult with
  | .error e => failWith s e
  | .ok _framePaths =>
  let s := { s with framesDir := true }
  let s := wUpdateStatus s .processing (some .pose) none
  let res := poseStep env s
  let shootingAngles? := res.1
  let skeletonUrls := res.2.1
  let s := res.2.2
  let s := wUpdateStatus s .processing (some .llm) none
  let sessions := getUserSessions env.sessionStore p.deviceId 5
  let _ctx := continuityContext sessions
  match analyzeShootingForm env.geminiOutcome with
  | .error e => failWith s e
  | .ok analysis =>
  let s := wUpdateStatus s .processing (some .saving) none
  let s := wSaveResults s
    { coachSummary := analysis.coachSummary
      primaryFocus := analysis.primaryFocus
      whyItMatters := analysis.whyItMatters
      drillRecommendation := analysis.drillRecommendation
      correctionCategory := analysis.correctionCategory
      skeletonFrameUrls := some skeletonUrls
      shootingAngles := shootingAngles?.map toMeasurements }
  match env.saveSessionResult with
  | .error e => failWith s e
  | .ok _ =>
  let s := { s with savedSessions := s.savedSessions ++
    [{ sessionId := p.analysisId, deviceId := p.deviceId,
       userId := p.userId, date := env.now,
       primaryFocus := analysis.primaryFocus,
       correctionCategory := analysis.correctionCategory,
       videoPath := p.videoPath }] }
  match env.completeWriteResult with
  | .error e => failWith s e
  | .ok _ =>
  let s := wUpdateStatus s .complete none none
  match env.unlinkResult with
  | .error e => failWith s e
  | .ok _ =>
  let s := { s with localVideo := false, framesDir := false }
  let s := wCleanupSkeleton s
  (none, s)

/-- Worker state before a run: the job as `createAnalysisJob` left it and
no temporary artifacts staged. -/
def initialWorkerState (j : AnalysisJob) : WorkerState :=
  { job := j, localVideo := false, framesDir := false, skeletonDir := false,
    savedSessions := [], statusWrites := [] }

/-- The ordered list of status values a worker run writes to the ledger. -/
def workerStatusTrace (env : WorkerEnv) (p : WorkerParams) (j : AnalysisJob) :
    List AnalysisStatus :=
  ((processAnalysisTask env p (initialWorkerState j)).2).statusWrites

/-! Section: Angle classifier (services/cv/angle_calculator.ts) -/

/-- Keys of the `IDEAL_RANGES` table. -/
inductive MetricKey
  | elbowAngle
  | kneeFlexion
  | bodyLeanDeg
  | setPointHeight
deriving DecidableEq, Repr

/-- One row of the `IDEAL_RANGES` table. -/
structure IdealRange where
  min : ℚ
  max : ℚ
deriving DecidableEq, Repr

/-- Embeds `IDEAL_RANGES` from services/cv/angle_calculator.ts (the `unit` strings
are display-only and omitted). -/
def IDEAL_RANGES : MetricKey → IdealRange
  | .elbowAngle => { min := 85, max := 100 }
  | .kneeFlexion => { min := 30, max := 45 }
  | .bodyLeanDeg => { min := -5, max := 5 }
  | .setPointHeight => { min := 1, max := 3/2 }

/-- The three-way verdict of `isInIdealRange`. -/
inductive RangeStatus
  | good
  | close
  | needs_work
deriving DecidableEq, Repr

/-- Return value of `isInIdealRange`. -/
structure RangeCheck where
  inRange : Bool
  deviation : ℚ
  status : RangeStatus
deriving DecidableEq, Repr

/-- JS `Math.round`: round half toward positive infinity. -/
def jsRound (x : ℚ) : ℚ := (⌊x + 1/2⌋ : ℤ)

/-- Embeds `isInIdealRange` from services/cv/angle_calculator.ts. -/
def isInIdealRange (value : ℚ) (metric : MetricKey) : RangeCheck :=
  let range := IDEAL_RANGES metric
  if range.min ≤ value ∧ value ≤ range.max then
    { inRange := true, deviation := 0, status := .good }
  else
    let deviation := if value < range.min then range.min - value
      else value - range.max
    let rangeSize := range.max - range.min
    let closeThreshold := rangeSize * (1/2)
    { inRange := false
      deviation := jsRound (deviation * 10) / 10
      status := if deviation ≤ closeThreshold then .close else .needs_work }

/-- Point in the plane from pose landmarks (the optional source fields `z` and `visibility`
are never read by `calculateAngle`). -/
structure Point where
  x : ℝ
  y : ℝ

/-- Embeds `calculateAngle` from services/cv/angle_calculator.ts: the angle at
vertex `b` between rays `b→a` and `b→c`, in degrees; `0` when either ray
has zero length.  The cosine is clamped to `[-1, 1]` before `acos` exactly
as in the source. -/
noncomputable def calculateAngle (a b c : Point) : ℝ :=
  if Real.sqrt ((a.x - b.x) * (a.x - b.x) + (a.y - b.y) * (a.y - b.y)) = 0 ∨
      Real.sqrt ((c.x - b.x) * (c.x - b.x) + (c.y - b.y) * (c.y - b.y)) = 0 then
    0
  else
    Real.arccos (max (-1) (min 1
      (((a.x - b.x) * (c.x - b.x) + (a.y - b.y) * (c.y - b.y)) /
        (Real.sqrt ((a.x - b.x) * (a.x - b.x) + (a.y - b.y) * (a.y - b.y)) *
          Real.sqrt ((c.x - b.x) * (c.x - b.x) + (c.y - b.y) * (c.y - b.y)))))) *
      (180 / Real.pi)

/-- Modelled from the spec: "the interior angle at vertex b formed by rays
b→a and b→c, via the normalized dot-product/arccosine formula on 2D
vectors" — the same quantity without the defensive cosine clamp.  Used only
to compare the formula of the spec against `calculateAngle`. -/
noncomputable def interiorAngleSpec (a b c : Point) : ℝ :=
  Real.arccos
      (((a.x - b.x) * (c.x - b.x) + (a.y - b.y) * (c.y - b.y)) /
        (Real.sqrt ((a.x - b.x) * (a.x - b.x) + (a.y - b.y) * (a.y - b.y)) *
          Real.sqrt ((c.x - b.x) * (c.x - b.x) + (c.y - b.y) * (c.y - b.y)))) *
    (180 / Real.pi)

/-! Section: Theorems -/

/-- C7: for every value and every ideal band, `isInIdealRange` returns
`good` iff the value lies in `[min, max]`; otherwise, with `d` the distance
outside the range, it returns `close` iff `d ≤ 0.5×(max−min)` and
`needs_work` otherwise; concretely `classify(92,85,100) = good`,
`classify(80,85,100) = close` and `classify(60,85,100) = needs_work`. -/
theorem isInIdealRange_classification :
    (∀ (v : ℚ) (m : MetricKey),
      ((isInIdealRange v m).status = .good ↔
        ((IDEAL_RANGES m).min ≤ v ∧ v ≤ (IDEAL_RANGES m).max)) ∧
      (¬((IDEAL_RANGES m).min ≤ v ∧ v ≤ (IDEAL_RANGES m).max) →
        (((isInIdealRange v m).status = .close ↔
            (if v < (IDEAL_RANGES m).min then (IDEAL_RANGES m).min - v
              else v - (IDEAL_RANGES m).max) ≤
              ((IDEAL_RANGES m).max - (IDEAL_RANGES m).min) * (1/2)) ∧
          ((isInIdealRange v m).status = .needs_work ↔
            ¬((if v < (IDEAL_RANGES m).min then (IDEAL_RANGES m).min - v
              else v - (IDEAL_RANGES m).max) ≤
              ((IDEAL_RANGES m).max - (IDEAL_RANGES m).min) * (1/2)))))) ∧
    (isInIdealRange 92 .elbowAngle).status = .good ∧
    (isInIdealRange 80 .elbowAngle).status = .close ∧
    (isInIdealRange 60 .elbowAngle).status = .needs_work := by
  refine ⟨fun v m => ?_, by norm_num [isInIdealRange, IDEAL_RANGES],
    by norm_num [isInIdealRange, IDEAL_RANGES],
    by norm_num [isInIdealRange, IDEAL_RANGES]⟩
  unfold isInIdealRange
  by_cases h : (IDEAL_RANGES m).min ≤ v ∧ v ≤ (IDEAL_RANGES m).max
  · rw [if_pos h]
    exact ⟨by simp [h], fun hc => absurd h hc⟩
  · rw [if_neg h]
    refine ⟨?_, fun _ => ⟨?_, ?_⟩⟩ <;> dsimp only <;> split_ifs with hd <;>
      simp [h, hd] <;> linarith

/-- Witness for C7: the hypotheses of the out-of-range characterization are
satisfiable, e.g. at `classify(80, 85, 100)`. -/
theorem isInIdealRange_classification_witness :
    ¬((IDEAL_RANGES .elbowAngle).min ≤ (80 : ℚ) ∧
        (80 : ℚ) ≤ (IDEAL_RANGES .elbowAngle).max) ∧
      (isInIdealRange 80 .elbowAngle).status = .close :=
  ⟨by norm_num [IDEAL_RANGES],
    ((isInIdealRange_classification.1 80 .elbowAngle).2
        (by norm_num [IDEAL_RANGES])).1.mpr
      (by norm_num [IDEAL_RANGES])⟩

/-- C6: whatever string the coaching collaborator returns as
`correctionCategory`, the value `analyzeShootingForm` hands back — and the
value a successful worker run persists on the job — belongs to the fixed
four-value enumeration; a value outside it is replaced with
`release_follow_through`. -/
theorem correction_category_validated :
    ∀ (raw : CoachingAnalysisResult),
      (∀ r', analyzeShootingForm (.ok raw) = .ok r' →
        r'.correctionCategory ∈ validCategories ∧
        (raw.correctionCategory ∈ validCategories →
          r'.correctionCategory = raw.correctionCategory) ∧
        (raw.correctionCategory ∉ validCategories →
          r'.correctionCategory = "release_follow_through")) ∧
      (∀ env p j l, env.downloadOk = true → env.framesResult = .ok l →
        env.geminiOutcome = .ok raw →
        ((processAnalysisTask env p (initialWorkerState j)).2).job.correctionCategory =
          some (validateCorrectionCategory raw.correctionCategory)) := by
  intro raw
  constructor
  · intro r' hr'
    simp only [analyzeShootingForm, Except.map, Except.ok.injEq] at hr'
    subst hr'
    refine ⟨?_, fun h => ?_, fun h => ?_⟩
    · by_cases h : raw.correctionCategory ∈ validCategories
      · simp [validateCorrectionCategory, h]
      · rw [validateCorrectionCategory, if_neg h]
        simp [validCategories]
    · simp [validateCorrectionCategory, h]
    · simp [validateCorrectionCategory, h]
  · intro env p j l hdl hfr hgem
    cases hpose : env.poseResult <;>
      cases hss : env.saveSessionResult <;>
      cases hcw : env.completeWriteResult <;>
      cases hul : env.unlinkResult <;>
      simp [processAnalysisTask, hdl, hfr, hgem, hpose, hss, hcw, hul,
        analyzeShootingForm, Except.map, poseStep, wUpdateStatus,
        wSaveResults, wCleanupSkeleton, failWith, updateAnalysisStatus,
        saveAnalysisResults, initialWorkerState, truthyStr]

/-- Witness for C6: concretely, an unrecognized category coming out of the
collaborator is persisted as `release_follow_through`. -/
theorem correction_category_validated_witness :
    ∀ r', analyzeShootingForm
        (.ok { coachSummary := "s", primaryFocus := "f", whyItMatters := "w",
               drillRecommendation := "d", correctionCategory := "bogus",
               priorReferenceText := none }) = .ok r' →
      r'.correctionCategory ∈ validCategories ∧
      r'.correctionCategory = "release_follow_through" := by
  intro r' hr'
  have h := (correction_category_validated
    { coachSummary := "s", primaryFocus := "f", whyItMatters := "w",
      drillRecommendation := "d", correctionCategory := "bogus",
      priorReferenceText := none }).1 r' hr'
  exact ⟨h.1, h.2.2 (by simp [validCategories])⟩

/-- A job the start route sees in the `failed` state. -/
def failedStartJob : AnalysisJob :=
  { analysisId := "a1", deviceId := "device-1", userId := none,
    status := .failed, progressStage := none,
    videoPath := some "videos/a1/v.mp4", error := some "boom",
    coachSummary := none, primaryFocus := none, whyItMatters := none,
    drillRecommendation := none, correctionCategory := none,
    skeletonFrameUrls := none, shootingAngles := none }

/-- Counterexample for C2: the start route only short-circuits on
`processing` and `complete`; invoked on a job whose status is `failed`
(which is beyond `queued`) it enqueues a fresh worker task and reports
`queued`, not the current status of the job. -/
theorem start_failed_reenqueues_cex :
    failedStartJob.status = .failed ∧
    (startAnalysis (some failedStartJob) "device-1" "a1" true).2.length = 1 ∧
    (startAnalysis (some failedStartJob) "device-1" "a1" true).1 =
      .ok .queued "Analysis started" := by
  refine ⟨rfl, ?_, ?_⟩ <;> rfl

/-- C2 (amended): for every job whose status is `processing` or `complete`,
the start route is an idempotent no-op that reports the current status
of the job and enqueues nothing; a `failed` (or `queued`) job, by contrast, is
(re-)enqueued. -/
theorem start_idempotent_processing_complete :
    ∀ (job : AnalysisJob) (reqId jid : String) (enqueueOk : Bool),
      job.deviceId = reqId →
      (job.status = .processing ∨ job.status = .complete) →
      startAnalysis (some job) reqId jid enqueueOk =
        (.ok job.status "Analysis already started", []) := by
  intro job reqId jid enqueueOk hdev hst
  simp [startAnalysis, hdev, hst]

/-- Witness for C2: the amended theorem applies to a concrete job with
status `processing`. -/
theorem start_idempotent_processing_complete_witness :
    startAnalysis (some { failedStartJob with status := .processing })
        "device-1" "a1" true =
      (.ok .processing "Analysis already started", []) :=
  start_idempotent_processing_complete
    { failedStartJob with status := .processing } "device-1" "a1" true
    rfl (Or.inl rfl)

/-- C3: a non-pro owner at or past the free limit is denied with
`PAYWALL_REQUIRED` before any job is written (no partial state); an allowed
non-pro owner gets exactly one usage increment, and only after the job
record has been successfully created (on a failed job write no increment
happens). -/
theorem create_entitlement_gate :
    ∀ (user : UserData) (createJobOk : Bool) (aid vp : String),
      (user.isPro = false → user.freeAnalysesLimit ≤ user.freeAnalysesUsed →
        (createAnalysisRoute user createJobOk aid vp).outcome = .paywallDenied ∧
        (createAnalysisRoute user createJobOk aid vp).jobs = [] ∧
        (createAnalysisRoute user createJobOk aid vp).user = user ∧
        (createAnalysisRoute user createJobOk aid vp).events =
          [.entitlementChecked]) ∧
      (user.isPro = false → user.freeAnalysesUsed < user.freeAnalysesLimit →
        createJobOk = true →
        (createAnalysisRoute user createJobOk aid vp).jobs =
          [createAnalysisJob aid user.deviceId user.userId vp] ∧
        (createAnalysisRoute user createJobOk aid vp).user.freeAnalysesUsed =
          user.freeAnalysesUsed + 1 ∧
        (createAnalysisRoute user createJobOk aid vp).events =
          [.entitlementChecked, .jobCreated, .usageIncremented]) ∧
      (createJobOk = false →
        (createAnalysisRoute user createJobOk aid vp).user = user ∧
        CreateEvent.usageIncremented ∉
          (createAnalysisRoute user createJobOk aid vp).events ∧
        (createAnalysisRoute user createJobOk aid vp).jobs = []) := by
  intro user createJobOk aid vp
  refine ⟨fun hp hl => ?_, fun hp hl hok => ?_, fun hok => ?_⟩
  · simp [createAnalysisRoute, hp, hl]
  · simp [createAnalysisRoute, hp, hok, not_le.mpr hl]
  · subst hok
    by_cases hp : user.isPro
    · by_cases hl : user.freeAnalysesLimit ≤ user.freeAnalysesUsed <;>
        simp [createAnalysisRoute, hp, hl]
    · simp only [Bool.not_eq_true] at hp
      by_cases hl : user.freeAnalysesLimit ≤ user.freeAnalysesUsed <;>
        simp [createAnalysisRoute, hp, hl]

/-- Witness for C3: both the denial and the allowed path fire on concrete
owners (limit 1: used 1 is denied; used 0 is allowed and incremented after
creation). -/
theorem create_entitlement_gate_witness :
    (createAnalysisRoute
        { deviceId := "d", userId := none, isPro := false,
          freeAnalysesUsed := 1, freeAnalysesLimit := 1 } true "a" "v").outcome =
      .paywallDenied ∧
    (createAnalysisRoute
        { deviceId := "d", userId := none, isPro := false,
          freeAnalysesUsed := 0, freeAnalysesLimit := 1 } true "a" "v").events =
      [.entitlementChecked, .jobCreated, .usageIncremented] :=
  ⟨((create_entitlement_gate
      { deviceId := "d", userId := none, isPro := false,
        freeAnalysesUsed := 1, freeAnalysesLimit := 1 } true "a" "v").1
      rfl (by norm_num)).1,
   ((create_entitlement_gate
      { deviceId := "d", userId := none, isPro := false,
        freeAnalysesUsed := 0, freeAnalysesLimit := 1 } true "a" "v").2.1
      rfl (by norm_num) rfl).2.2⟩

instance : IsTotal SessionSummary dateDesc :=
  ⟨fun a b => (le_total b.date a.date).elim Or.inl Or.inr⟩

instance : IsTrans SessionSummary dateDesc :=
  ⟨fun _ _ _ hab hbc => le_trans hbc hab⟩

/-- Session store exercising the continuity computation: two sessions with
focus "A" separated by one with focus "B", newest first after sorting. -/
def sessA : SessionSummary :=
  { sessionId := "s1", deviceId := "d", userId := none, date := 3,
    primaryFocus := "A", correctionCategory := "balance_verticality",
    videoPath := "v1" }

def sessB : SessionSummary :=
  { sessionId := "s2", deviceId := "d", userId := none, date := 2,
    primaryFocus := "B", correctionCategory := "shot_line_integrity",
    videoPath := "v2" }

def sessA2 : SessionSummary :=
  { sessionId := "s3", deviceId := "d", userId := none, date := 1,
    primaryFocus := "A", correctionCategory := "balance_verticality",
    videoPath := "v3" }

def cexStoreC9 : List SessionSummary := [sessA2, sessA, sessB]

/-- Counterexample for C9: on the fetched history A, B, A (newest first)
the `sessionsOnFocus` filter of the worker counts 2 sessions sharing the current
focus "A", while the number of consecutive sessions sharing it is 1 — the
code counts all matching sessions in the 5-session window, not consecutive
ones. -/
theorem continuity_counts_nonconsecutive_cex :
    (continuityContext (getUserSessions cexStoreC9 "d" 5)).2 = 2 ∧
    consecutiveOnFocus (getUserSessions cexStoreC9 "d" 5) = 1 ∧
    (continuityContext (getUserSessions cexStoreC9 "d" 5)).2 ≠
      consecutiveOnFocus (getUserSessions cexStoreC9 "d" 5) := by
  refine ⟨?_, ?_, ?_⟩ <;> decide

/-- C9 (amended): the worker reads the sessions of the owner most-recent-first
with a bounded count (5) and scoped to the owner, and computes the current
focus (the `primaryFocus` of the newest session) together with the number of
fetched sessions — consecutive or not — sharing that focus. -/
theorem continuity_context_props :
    ∀ (store : List SessionSummary) (d : String),
      (getUserSessions store d 5).length ≤ 5 ∧
      List.Sorted dateDesc (getUserSessions store d 5) ∧
      (∀ s ∈ getUserSessions store d 5, s.deviceId = d) ∧
      (∀ h rest, getUserSessions store d 5 = h :: rest →
        continuityContext (getUserSessions store d 5) =
          (some h.primaryFocus,
            ((h :: rest).filter
              fun s => s.primaryFocus = h.primaryFocus).length)) := by
  intro store d
  refine ⟨?_, ?_, ?_, ?_⟩
  · exact List.length_take_le 5
      (List.insertionSort dateDesc (store.filter fun s => s.deviceId = d))
  · have hs : List.Sorted dateDesc
        (List.insertionSort dateDesc (store.filter fun s => s.deviceId = d)) :=
      List.sorted_insertionSort dateDesc _
    exact List.Pairwise.sublist (List.take_sublist 5 _) hs
  · intro s hsmem
    have h1 : s ∈ List.insertionSort dateDesc
        (store.filter fun x => x.deviceId = d) :=
      List.take_subset 5 _ hsmem
    have h2 : s ∈ store.filter (fun x => x.deviceId = d) :=
      (List.perm_insertionSort dateDesc _).subset h1
    have h3 := (List.mem_filter.mp h2).2
    exact of_decide_eq_true h3
  · intro h rest heq
    rw [heq]
    simp [continuityContext]

/-- Witness for C9: on the concrete fetched history A, B, A the continuity
context is focus "A" with count 2. -/
theorem continuity_context_props_witness :
    continuityContext (getUserSessions cexStoreC9 "d" 5) = (some "A", 2) := by
  have h := (continuity_context_props cexStoreC9 "d").2.2.2
    sessA [sessB, sessA2] (by decide)
  rw [h]
  decide

/-- A concrete frame list longer than 5, to exercise the key-frame
selection branch. -/
def cexPathsC10 : List String := ["a", "b", "c", "d", "e", "f"]

/-- Counterexample for C10: with 6 frames and release-frame index −5 the
selection contains `none` (JS `undefined`) entries — the array is indexed
at negative positions — so not every returned path is an element of the
input list. -/
theorem selectKeyFrames_negative_release_cex :
    none ∈ (selectKeySkeletonFrames cexPathsC10 (-5)).paths ∧
    ¬ ∀ p ∈ (selectKeySkeletonFrames cexPathsC10 (-5)).paths,
        ∃ x ∈ cexPathsC10, p = some x := by
  refine ⟨by decide, fun hall => ?_⟩
  rcases hall none (by decide) with ⟨x, _, hx⟩
  exact Option.noConfusion hx

/-- C10 (amended): for every non-negative release-frame index — including
one at or past the end of the list — `selectKeySkeletonFrames` returns at
most 5 paths, each an element of the input list, with exactly as many
labels as paths, and returns the whole list when it has 5 or fewer
elements.  (A negative index produces out-of-range accesses instead, per
the counterexample.) -/
theorem selectKeyFrames_bounds :
    ∀ (allPaths : List String) (rf : Int), 0 ≤ rf →
      (selectKeySkeletonFrames allPaths rf).paths.length ≤ 5 ∧
      (∀ p ∈ (selectKeySkeletonFrames allPaths rf).paths,
        ∃ x ∈ allPaths, p = some x) ∧
      (selectKeySkeletonFrames allPaths rf).labels.length =
        (selectKeySkeletonFrames allPaths rf).paths.length ∧
      (allPaths.length ≤ 5 →
        (selectKeySkeletonFrames allPaths rf).paths = allPaths.map some) := by
  intro allPaths rf hrf
  by_cases h0 : allPaths.length = 0
  · have : allPaths = [] := List.length_eq_zero.mp h0
    subst this
    simp [selectKeySkeletonFrames]
  · by_cases h5 : allPaths.length ≤ 5
    · refine ⟨?_, ?_, ?_, fun _ => ?_⟩ <;>
        simp [selectKeySkeletonFrames, h0, h5]
    · have hn6 : 6 ≤ allPaths.length := by omega
      have hn6' : (6 : Int) ≤ (allPaths.length : Int) := by exact_mod_cast hn6
      unfold selectKeySkeletonFrames
      rw [if_neg h0, if_neg h5]
      dsimp only
      set n : Int := (allPaths.length : Int) with hn
      set idx : List Int :=
        [0, n / 4, max 0 (rf - 2), rf, min (n - 1) (rf + 3)] with hidx
      set u := List.insertionSort (· ≤ ·) idx.dedup with hu
      have hulen : u.length ≤ 5 := by
        have h1 : u.length = idx.dedup.length :=
          (List.perm_insertionSort _ _).length_eq
        have h2 : idx.dedup.length ≤ idx.length :=
          List.Sublist.length_le (List.dedup_sublist idx)
        have h3 : idx.length = 5 := by rw [hidx]; rfl
        omega
      have humem : ∀ i ∈ u, 0 ≤ i := by
        intro i hi
        have hmem : i ∈ idx := by
          rw [← List.mem_dedup]
          exact (List.perm_insertionSort _ _).subset hi
        rw [hidx] at hmem
        simp only [List.mem_cons, List.not_mem_nil, or_false] at hmem
        rcases hmem with h | h | h | h | h
        · omega
        · subst h; exact Int.ediv_nonneg (by omega) (by norm_num)
        · subst h; exact le_max_left 0 _
        · omega
        · subst h; exact le_min (by omega) (by omega)
      refine ⟨?_, ?_, ?_, fun hcon => absurd hcon h5⟩
      · simpa using hulen
      · intro p hp
        rw [List.mem_map] at hp
        obtain ⟨i, hiu, hpi⟩ := hp
        have hi0 : 0 ≤ i := humem i hiu
        have hj0 : 0 ≤ min i (n - 1) := le_min hi0 (by omega)
        have hjlt : (min i (n - 1)).toNat < allPaths.length := by
          have h1 : min i (n - 1) ≤ n - 1 := min_le_right _ _
          omega
        refine ⟨allPaths.get ⟨(min i (n - 1)).toNat, hjlt⟩,
          List.get_mem _ _ _, ?_⟩
        rw [← hpi]
        unfold jsGet
        rw [if_pos hj0, List.get?_eq_get hjlt]
      · simp only [List.length_map, List.length_take, keyFrameLabels,
          List.length_cons, List.length_nil]
        omega

/-- Witness for C10: the amended theorem applies to six frames with a
release-frame index of 2. -/
theorem selectKeyFrames_bounds_witness :
    (selectKeySkeletonFrames cexPathsC10 2).paths.length ≤ 5 ∧
    (selectKeySkeletonFrames cexPathsC10 2).labels.length =
      (selectKeySkeletonFrames cexPathsC10 2).paths.length :=
  ⟨(selectKeyFrames_bounds cexPathsC10 2 (by norm_num)).1,
   (selectKeyFrames_bounds cexPathsC10 2 (by norm_num)).2.2.1⟩

/-- A job record that has already reached `complete`. -/
def completedJob : AnalysisJob :=
  { analysisId := "a2", deviceId := "device-2", userId := none,
    status := .complete, progressStage := some .saving,
    videoPath := some "videos/a2/v.mp4", error := none,
    coachSummary := some "good", primaryFocus := some "f",
    whyItMatters := some "w", drillRecommendation := some "dr",
    correctionCategory := some "balance_verticality",
    skeletonFrameUrls := some [], shootingAngles := none }

/-- Counterexample for C1: `updateAnalysisStatus` writes the given status
without reading or checking the stored one — applied to a job that is
already `complete` it moves the status backward to `processing`, a
transition the claimed forward-only/conditional-write discipline forbids
(and one a redelivered queue task actually performs). -/
theorem ledger_backward_move_cex :
    completedJob.status = .complete ∧
    (updateAnalysisStatus completedJob .processing
      (some .extracting_frames) none).status = .processing ∧
    ¬ statusForward completedJob.status .processing :=
  ⟨rfl, rfl, by decide⟩

/-- C1 (amended): the Job Ledger mutations are unconditional overwrites —
`updateAnalysisStatus` stores exactly the status it is given and
`saveAnalysisResults` unconditionally sets `complete`, checking nothing —
so the forward-only property fails: besides the redelivery move of the
counterexample, a single worker run in which `saveSession` throws after
`saveAnalysisResults` has written `complete` performs the write sequence
processing…, complete, failed — a backward step within one run. -/
theorem ledger_blind_overwrite_backward_writes :
    (∀ (job : AnalysisJob) (st : AnalysisStatus) (ps : Option ProgressStage)
        (err : Option String),
      (updateAnalysisStatus job st ps err).status = st) ∧
    (∀ (job : AnalysisJob) (r : AnalysisResultsPayload),
      (saveAnalysisResults job r).status = .complete) ∧
    (∀ (env : WorkerEnv) (p : WorkerParams) (j : AnalysisJob)
        (l : List String) (raw : CoachingAnalysisResult) (e : String),
      env.downloadOk = true → env.framesResult = .ok l →
      env.geminiOutcome = .ok raw → env.saveSessionResult = .error e →
      workerStatusTrace env p j =
        [.processing, .processing, .processing, .processing,
         .complete, .failed] ∧
      ¬ List.Chain' statusForward (workerStatusTrace env p j)) := by
  refine ⟨fun job st ps err => rfl, fun job r => rfl,
    fun env p j l raw e hdl hfr hgem hss => ?_⟩
  have htrace : workerStatusTrace env p j =
      [.processing, .processing, .processing, .processing,
       .complete, .failed] := by
    cases hp : env.poseResult <;>
      simp [workerStatusTrace, processAnalysisTask, hdl, hfr, hgem, hss, hp,
        failWith, wUpdateStatus, wSaveResults, wCleanupSkeleton, poseStep,
        analyzeShootingForm, Except.map, initialWorkerState]
  rw [htrace]
  exact ⟨rfl, by simp [List.chain'_cons, statusForward]⟩

/-- A run in which everything up to and including `saveAnalysisResults`
succeeds and the `saveSession` write then throws. -/
def envC1 : WorkerEnv :=
  { downloadOk := true, downloadErr := "", framesResult := .ok ["f1"],
    poseResult := .error "pose skipped", poseDirOnFailure := false,
    uploadedUrls := [],
    geminiOutcome := .ok
      { coachSummary := "c", primaryFocus := "p", whyItMatters := "w",
        drillRecommendation := "d",
        correctionCategory := "balance_verticality",
        priorReferenceText := none },
    saveSessionResult := .error "firestore unavailable",
    completeWriteResult := .ok (), unlinkResult := .ok (),
    sessionStore := [], now := 4 }

def paramsC1 : WorkerParams :=
  { analysisId := "a4", videoPath := "videos/a4/v.mp4", angleHint := none,
    deviceId := "device-4", userId := none }

/-- Witness for C1: a concrete run whose `saveSession` write throws
produces the backward complete→failed ledger sequence. -/
theorem ledger_blind_overwrite_backward_writes_witness :
    workerStatusTrace envC1 paramsC1
        (createAnalysisJob "a4" "device-4" none "videos/a4/v.mp4") =
      [.processing, .processing, .processing, .processing,
       .complete, .failed] ∧
    ¬ List.Chain' statusForward
      (workerStatusTrace envC1 paramsC1
        (createAnalysisJob "a4" "device-4" none "videos/a4/v.mp4")) :=
  ledger_blind_overwrite_backward_writes.2.2 envC1 paramsC1
    (createAnalysisJob "a4" "device-4" none "videos/a4/v.mp4")
    ["f1"] _ "firestore unavailable" rfl rfl rfl rfl

/-- Parameters for concrete worker runs. -/
def cexParamsC4 : WorkerParams :=
  { analysisId := "a3", videoPath := "videos/a3/v.mp4", angleHint := none,
    deviceId := "device-3", userId := none }

def cexJobC4 : AnalysisJob :=
  createAnalysisJob "a3" "device-3" none "videos/a3/v.mp4"

def cexPoseC4 : PoseSuccess :=
  { framesAnalyzed := 10
    shootingAngles :=
      { elbowAngleAtRelease := 90, kneeFlexionAtSetPoint := 35,
        bodyLeanDeg := 1, setPointHeight := 1, releaseFrame := 3,
        confidence := .high }
    skeletonFramePaths := ["s1", "s2", "s3", "s4", "s5", "s6"] }

/-- A run in which every step up to the coaching call succeeds and the
coaching collaborator throws. -/
def cexEnvC4 : WorkerEnv :=
  { downloadOk := true, downloadErr := "", framesResult := .ok ["f1", "f2"],
    poseResult := .ok cexPoseC4, poseDirOnFailure := false,
    uploadedUrls := ["u1"], geminiOutcome := .error "Gemini failed",
    saveSessionResult := .ok (), completeWriteResult := .ok (),
    unlinkResult := .ok (), sessionStore := [], now := 7 }

/-- Counterexample for C4: when the coaching collaborator throws, the catch
handler cleans up only the skeleton directory — the downloaded video and
the extracted-frames directory are still present when the worker returns,
although the job does reach `failed`. -/
theorem worker_failure_leaks_tempfiles_cex :
    ((processAnalysisTask cexEnvC4 cexParamsC4
        (initialWorkerState cexJobC4)).2).job.status = .failed ∧
    ((processAnalysisTask cexEnvC4 cexParamsC4
        (initialWorkerState cexJobC4)).2).localVideo = true ∧
    ((processAnalysisTask cexEnvC4 cexParamsC4
        (initialWorkerState cexJobC4)).2).framesDir = true :=
  ⟨rfl, rfl, rfl⟩

/-- C4 (amended): on the success path the worker removes all three staged
artifacts (video, frames, skeleton frames) before returning; on a failure
path — in particular when the coaching collaborator throws — it removes
only the skeleton frames, leaves the downloaded video and the frames
directory behind, and marks the job `failed`, persisting the (non-empty)
error message. -/
theorem worker_cleanup_paths :
    (∀ (env : WorkerEnv) (p : WorkerParams) (j : AnalysisJob),
      (processAnalysisTask env p (initialWorkerState j)).1 = none →
      ((processAnalysisTask env p (initialWorkerState j)).2).localVideo = false ∧
      ((processAnalysisTask env p (initialWorkerState j)).2).framesDir = false ∧
      ((processAnalysisTask env p (initialWorkerState j)).2).skeletonDir = false) ∧
    (∀ (env : WorkerEnv) (p : WorkerParams) (j : AnalysisJob)
        (l : List String) (e : String),
      env.downloadOk = true → env.framesResult = .ok l →
      env.geminiOutcome = .error e →
      ((processAnalysisTask env p (initialWorkerState j)).2).job.status = .failed ∧
      ((processAnalysisTask env p (initialWorkerState j)).2).skeletonDir = false ∧
      ((processAnalysisTask env p (initialWorkerState j)).2).localVideo = true ∧
      ((processAnalysisTask env p (initialWorkerState j)).2).framesDir = true ∧
      (e ≠ "" →
        ((processAnalysisTask env p (initialWorkerState j)).2).job.error = some e)) := by
  constructor
  · intro env p j hnone
    obtain ⟨dOk, dErr, fr, pr, pdf, urls, gem, ssr, cwr, ulr, store, now⟩ := env
    cases dOk <;> cases fr <;> cases pr <;> cases gem <;> cases ssr <;>
      cases cwr <;> cases ulr <;>
      simp_all [processAnalysisTask, failWith, wUpdateStatus, wSaveResults,
        wCleanupSkeleton, poseStep, analyzeShootingForm, Except.map,
        initialWorkerState]
  · intro env p j l e hdl hfr hgem
    cases hp : env.poseResult <;>
      refine ⟨?_, ?_, ?_, ?_, fun he => ?_⟩ <;>
      simp_all [processAnalysisTask, failWith, wUpdateStatus,
        wSaveResults, wCleanupSkeleton, poseStep, analyzeShootingForm,
        Except.map, initialWorkerState, updateAnalysisStatus, truthyStr]

/-- A fully successful run (pose degraded), for the C4 witness. -/
def okEnvC4 : WorkerEnv :=
  { downloadOk := true, downloadErr := "", framesResult := .ok ["f1"],
    poseResult := .error "pose boom", poseDirOnFailure := false,
    uploadedUrls := [],
    geminiOutcome := .ok
      { coachSummary := "c", primaryFocus := "p", whyItMatters := "w",
        drillRecommendation := "d",
        correctionCategory := "balance_verticality",
        priorReferenceText := none },
    saveSessionResult := .ok (), completeWriteResult := .ok (),
    unlinkResult := .ok (), sessionStore := [], now := 1 }

/-- Witness for C4: both branches of the amended theorem fire on concrete
runs — a successful run leaves no artifacts, and the coaching-failure run
persists the error message. -/
theorem worker_cleanup_paths_witness :
    ((processAnalysisTask okEnvC4 cexParamsC4
        (initialWorkerState cexJobC4)).2).localVideo = false ∧
    ((processAnalysisTask cexEnvC4 cexParamsC4
        (initialWorkerState cexJobC4)).2).job.error = some "Gemini failed" :=
  ⟨(worker_cleanup_paths.1 okEnvC4 cexParamsC4 cexJobC4 rfl).1,
   (worker_cleanup_paths.2 cexEnvC4 cexParamsC4 cexJobC4 ["f1", "f2"]
      "Gemini failed" rfl rfl rfl).2.2.2.2 (by decide)⟩

/-- C5: a job whose landmark-extraction step throws is not failed by it —
provided the coaching collaborator succeeds (and the run is otherwise
unimpeded: the session write, final status write and video cleanup
succeed, as the claim's scenario presupposes), the worker run on a freshly
created job returns without error and the job reaches `complete` with the
angle measurement absent and no annotated-frame references retained. -/
theorem pose_failure_still_completes :
    ∀ (env : WorkerEnv) (p : WorkerParams) (aid did : String)
      (uid : Option String) (vp : String) (l : List String) (pe : String)
      (raw : CoachingAnalysisResult),
      env.downloadOk = true → env.framesResult = .ok l →
      env.poseResult = .error pe → env.geminiOutcome = .ok raw →
      env.saveSessionResult = .ok () → env.completeWriteResult = .ok () →
      env.unlinkResult = .ok () →
      (processAnalysisTask env p
        (initialWorkerState (createAnalysisJob aid did uid vp))).1 = none ∧
      ((processAnalysisTask env p
        (initialWorkerState (createAnalysisJob aid did uid vp))).2).job.status =
        .complete ∧
      ((processAnalysisTask env p
        (initialWorkerState (createAnalysisJob aid did uid vp))).2).job.shootingAngles =
        none ∧
      ((processAnalysisTask env p
        (initialWorkerState (createAnalysisJob aid did uid vp))).2).job.skeletonFrameUrls =
        some [] := by
  intro env p aid did uid vp l pe raw hdl hfr hp hgem hss hcw hul
  simp [processAnalysisTask, hdl, hfr, hp, hgem, hss, hcw, hul, poseStep,
    analyzeShootingForm, Except.map, wUpdateStatus, wSaveResults,
    wCleanupSkeleton, updateAnalysisStatus, saveAnalysisResults,
    createAnalysisJob, initialWorkerState, truthyStr]

/-- A degraded-but-successful run for the C5 witness. -/
def okEnvC5 : WorkerEnv :=
  { downloadOk := true, downloadErr := "", framesResult := .ok ["f1"],
    poseResult := .error "mediapipe crashed", poseDirOnFailure := true,
    uploadedUrls := [],
    geminiOutcome := .ok
      { coachSummary := "c", primaryFocus := "p", whyItMatters := "w",
        drillRecommendation := "d",
        correctionCategory := "set_point_consistency",
        priorReferenceText := none },
    saveSessionResult := .ok (), completeWriteResult := .ok (),
    unlinkResult := .ok (), sessionStore := [], now := 2 }

def paramsC5 : WorkerParams :=
  { analysisId := "a5", videoPath := "videos/a5/v.mp4", angleHint := none,
    deviceId := "device-5", userId := none }

/-- Witness for C5: the theorem applies to a concrete degraded run. -/
theorem pose_failure_still_completes_witness :
    ((processAnalysisTask okEnvC5 paramsC5
        (initialWorkerState
          (createAnalysisJob "a5" "device-5" none "videos/a5/v.mp4"))).2).job.status =
      .complete :=
  (pose_failure_still_completes okEnvC5 paramsC5 "a5" "device-5" none
    "videos/a5/v.mp4" ["f1"] "mediapipe crashed" _
    rfl rfl rfl rfl rfl rfl rfl).2.1

/-- The defensive clamp in `calculateAngle` never fires on a true cosine:
by Cauchy–Schwarz the normalized dot product of two nonzero 2D vectors
already lies in `[-1, 1]`. -/
theorem clamp_cos_eq (ux uy vx vy : ℝ)
    (h1 : Real.sqrt (ux * ux + uy * uy) ≠ 0)
    (h2 : Real.sqrt (vx * vx + vy * vy) ≠ 0) :
    max (-1) (min 1 ((ux * vx + uy * vy) /
        (Real.sqrt (ux * ux + uy * uy) * Real.sqrt (vx * vx + vy * vy)))) =
      (ux * vx + uy * vy) /
        (Real.sqrt (ux * ux + uy * uy) * Real.sqrt (vx * vx + vy * vy)) := by
  have hs1 : (0 : ℝ) ≤ ux * ux + uy * uy := by
    nlinarith [mul_self_nonneg ux, mul_self_nonneg uy]
  have hs2 : (0 : ℝ) ≤ vx * vx + vy * vy := by
    nlinarith [mul_self_nonneg vx, mul_self_nonneg vy]
  have hm1 : 0 < Real.sqrt (ux * ux + uy * uy) :=
    lt_of_le_of_ne (Real.sqrt_nonneg _) (Ne.symm h1)
  have hm2 : 0 < Real.sqrt (vx * vx + vy * vy) :=
    lt_of_le_of_ne (Real.sqrt_nonneg _) (Ne.symm h2)
  have hq1 : Real.sqrt (ux * ux + uy * uy) ^ 2 = ux * ux + uy * uy :=
    Real.sq_sqrt hs1
  have hq2 : Real.sqrt (vx * vx + vy * vy) ^ 2 = vx * vx + vy * vy :=
    Real.sq_sqrt hs2
  have hprod : 0 < Real.sqrt (ux * ux + uy * uy) *
      Real.sqrt (vx * vx + vy * vy) := mul_pos hm1 hm2
  have hcs : (ux * vx + uy * vy) ^ 2 ≤
      (Real.sqrt (ux * ux + uy * uy) * Real.sqrt (vx * vx + vy * vy)) ^ 2 := by
    rw [mul_pow, hq1, hq2]
    nlinarith [sq_nonneg (ux * vy - uy * vx)]
  have hub : ux * vx + uy * vy ≤
      Real.sqrt (ux * ux + uy * uy) * Real.sqrt (vx * vx + vy * vy) := by
    nlinarith [hcs, hprod]
  have hlb : -(Real.sqrt (ux * ux + uy * uy) *
      Real.sqrt (vx * vx + vy * vy)) ≤ ux * vx + uy * vy := by
    nlinarith [hcs, hprod]
  have hle1 : (ux * vx + uy * vy) /
      (Real.sqrt (ux * ux + uy * uy) * Real.sqrt (vx * vx + vy * vy)) ≤ 1 :=
    (div_le_one hprod).mpr hub
  have hge1 : (-1 : ℝ) ≤ (ux * vx + uy * vy) /
      (Real.sqrt (ux * ux + uy * uy) * Real.sqrt (vx * vx + vy * vy)) := by
    rw [le_div_iff₀ hprod]
    linarith
  rw [min_eq_right hle1, max_eq_right hge1]

/-- C8: `calculateAngle` is the interior angle at vertex `b` between rays
`b→a` and `b→c` computed by the normalized dot-product/arccosine formula —
the clamp is a no-op whenever both rays are nonzero — and it returns `0`
rather than raising when either ray has zero length; concretely
`angle((1,0), (0,0), (0,1)) = 90`. -/
theorem calculateAngle_formula :
    (∀ a b c : Point,
      ((Real.sqrt ((a.x - b.x) * (a.x - b.x) + (a.y - b.y) * (a.y - b.y)) = 0 ∨
        Real.sqrt ((c.x - b.x) * (c.x - b.x) + (c.y - b.y) * (c.y - b.y)) = 0) →
        calculateAngle a b c = 0) ∧
      (Real.sqrt ((a.x - b.x) * (a.x - b.x) + (a.y - b.y) * (a.y - b.y)) ≠ 0 →
        Real.sqrt ((c.x - b.x) * (c.x - b.x) + (c.y - b.y) * (c.y - b.y)) ≠ 0 →
        calculateAngle a b c = interiorAngleSpec a b c)) ∧
    calculateAngle ⟨1, 0⟩ ⟨0, 0⟩ ⟨0, 1⟩ = 90 := by
  constructor
  · intro a b c
    constructor
    · intro h
      unfold calculateAngle
      rw [if_pos h]
    · intro hBA hBC
      unfold calculateAngle interiorAngleSpec
      rw [if_neg (by push_neg; exact ⟨hBA, hBC⟩)]
      rw [clamp_cos_eq (a.x - b.x) (a.y - b.y) (c.x - b.x) (c.y - b.y) hBA hBC]
  · unfold calculateAngle
    norm_num [Real.sqrt_one]
    field_simp
    ring

/-- Witness for C8: the degenerate branch fires on a concrete zero-length
ray, returning 0. -/
theorem calculateAngle_formula_witness :
    calculateAngle ⟨0, 0⟩ ⟨0, 0⟩ ⟨1, 1⟩ = 0 :=
  (calculateAngle_formula.1 ⟨0, 0⟩ ⟨0, 0⟩ ⟨1, 1⟩).1
    (Or.inl (by norm_num [Real.sqrt_zero]))

end Arc
